import Mathlib

/-!
Verification of the MCP bakery client/server core
(src/streamlit_bakery_app.py and src/mcp_bakery_server.py).

The embedding models JSON values shallowly, the client's pending-request
table (`BackgroundMCPClient._pending_requests`, a Python dict from string
request ids to asyncio futures) as an association list, and each relevant
Python method as a pure Lean function over that state.
-/

/-- A JSON value as produced by Python `json.loads` / consumed by
`json.dumps`.  Numbers are modelled as integers: every number this
code base puts in a message (ids, error codes) is an integer. -/
inductive JVal where
  | jnull
  | jbool (b : Bool)
  | jnum (n : Int)
  | jstr (s : String)
  | jarr (elems : List JVal)
  | jobj (fields : List (String × JVal))

/-- Python `d[k]`-style raw lookup on a JSON object: `some v` iff the key is
present (`v` may be `jnull`), `none` if absent or not a dict. -/
def rawGet (j : JVal) (k : String) : Option JVal :=
  match j with
  | .jobj fields => fields.lookup k
  | _ => none

/-- Python `d.get(k)` followed by an `is not None` test: Python returns
`None` both when the key is absent and when its value is JSON null, so the
two cases collapse to `none`. -/
def pyGet (j : JVal) (k : String) : Option JVal :=
  match rawGet j k with
  | some .jnull => none
  | o => o

/-- Python `k in d` key-membership test on a JSON object. -/
def hasKey (j : JVal) (k : String) : Bool :=
  match j with
  | .jobj fields => fields.any (fun p => p.1 == k)
  | _ => false

/-- Python truthiness of a JSON value (`if x:`). -/
def pyTruthy : JVal → Bool
  | .jnull => false
  | .jbool b => b
  | .jnum n => n != 0
  | .jstr s => s != ""
  | .jarr elems => !elems.isEmpty
  | .jobj fields => !fields.isEmpty

/-- Decimal digits, most significant first, computed with explicit fuel
(structural recursion, so concrete values reduce definitionally); the
fuel is never exhausted when it starts at least as large as `n`. -/
def natDigitsAux : Nat → Nat → List Nat
  | 0, n => [n]
  | fuel + 1, n =>
      if n < 10 then [n] else natDigitsAux fuel (n / 10) ++ [n % 10]

/-- Decimal digits of a natural number, most significant first
(`[n]` when `n < 10`). -/
def natDigits (n : Nat) : List Nat :=
  natDigitsAux n n

/-- Python `str(n)` for a nonnegative integer: its decimal digit string. -/
def pyStrNat (n : Nat) : String :=
  String.mk ((natDigits n).map Nat.digitChar)

/-- Python `str(i)` for an integer. -/
def pyStrInt (i : Int) : String :=
  if i < 0 then "-" ++ pyStrNat (-i).toNat else pyStrNat i.toNat

/-! Python `str(x)` of a JSON value, as used by
`request_id_str = str(request_id)` in `_handle_response` and by f-string
interpolation in log/error messages.  Container rendering approximates
Python `repr` (it omits the quotes Python puts around nested strings);
no behaviour in this file depends on the rendering of a container:
it can never collide with the purely-decimal request ids the client
issues, which is all the correlation logic compares against. -/
mutual

/-- Python `str(x)` of a JSON value (see the comment above). -/
def pyStr : JVal → String
  | .jnull => "None"
  | .jbool true => "True"
  | .jbool false => "False"
  | .jnum n => pyStrInt n
  | .jstr s => s
  | .jarr elems => "[" ++ String.intercalate ", " (pyStrList elems) ++ "]"
  | .jobj fields =>
      "\x7b" ++ String.intercalate ", " (pyStrFields fields) ++ "\x7d"

/-- Renderings of the elements of a JSON array, for `pyStr`. -/
def pyStrList : List JVal → List String
  | [] => []
  | e :: rest => pyStr e :: pyStrList rest

/-- Renderings of the fields of a JSON object, for `pyStr`. -/
def pyStrFields : List (String × JVal) → List String
  | [] => []
  | (k, v) :: rest => (k ++ ": " ++ pyStr v) :: pyStrFields rest

end

/-- The client-side MCPError detail dict
`{"message": msg, "code": code}` (field order as written in the source). -/
def errDetails (code : Int) (msg : String) : JVal :=
  .jobj [("message", .jstr msg), ("code", .jnum code)]

/-- State of one `asyncio.Future` held in `_pending_requests`:
unresolved, fulfilled with a result value (`set_result`), fulfilled with an
`MCPError` failure carrying the given details dict (`set_exception`), or
cancelled.  `done()` is true for every state but `pending`. -/
inductive FutureState where
  | pending
  | doneResult (v : JVal)
  | doneError (details : JVal)
  | cancelledFut

/-- The pending-call table `_pending_requests : Dict[str, asyncio.Future]`,
as an association list with (dict-invariant) unique keys. -/
abbrev PendingTable := List (String × FutureState)

/-- Python `dict.pop(k, None)`'s removal effect.  Keys of a dict are
unique, so filtering every binding of `k` coincides with removing the one
binding. -/
def eraseKey (t : PendingTable) (k : String) : PendingTable :=
  t.filter (fun p => p.1 != k)

/-- Python `d[k] = v`: replace the existing binding in place, else append
(dict insertion order). -/
def setKey (t : PendingTable) (k : String) (v : FutureState) : PendingTable :=
  if t.any (fun p => p.1 == k) then
    t.map (fun p => if p.1 == k then (k, v) else p)
  else t ++ [(k, v)]

/-- Result of `BackgroundMCPClient._handle_response`: the table after the
`pop`, and, when an entry was popped, that entry's id together with its
future's state afterwards (the future object outlives the table; the
awaiting caller holds it).  `resolved = none` means no future was touched. -/
structure HandleResult where
  table : PendingTable
  resolved : Option (String × FutureState)

/-- `BackgroundMCPClient._handle_response` (src/streamlit_bakery_app.py
lines 105-123).  `request_id = response.get("id")`; if not `None` the entry
is popped; a not-yet-done future is fulfilled from the `result` / `error`
field (or an "Invalid response format" MCPError when neither is present);
an already-done popped future is only logged; an unknown id is only
logged; a message without id is treated as a notification and logged.
When the decoded line is not a dict at all, the `.get` call raises
`AttributeError`, which `_stdout_reader` catches and logs without touching
the table — observably the same as the notification branch below. -/
def handleResponse (t : PendingTable) (response : JVal) : HandleResult :=
  match pyGet response "id" with
  | some idVal =>
      let rid := pyStr idVal
      match t.lookup rid with
      | some fs =>
          let t2 := eraseKey t rid
          match fs with
          | .pending =>
              if hasKey response "result" then
                ⟨t2, some (rid, .doneResult ((rawGet response "result").getD .jnull))⟩
              else if hasKey response "error" then
                match (rawGet response "error").getD .jnull with
                | .jobj fields => ⟨t2, some (rid, .doneError (.jobj fields))⟩
                | _ =>
                    -- `MCPError(response["error"])` calls `details.get` in its
                    -- constructor; for a non-dict error value that raises
                    -- AttributeError before `set_exception` runs, so the
                    -- entry is popped but the future stays unresolved (the
                    -- exception is caught and logged in `_stdout_reader`).
                    ⟨t2, some (rid, .pending)⟩
              else
                ⟨t2, some (rid, .doneError (errDetails (-32000) "Invalid response format"))⟩
          | _ => ⟨t2, some (rid, fs)⟩
      | none => ⟨t, none⟩
  | none => ⟨t, none⟩

/-- The subprocess handle (`asyncio.subprocess.Process`): the only
attribute the client logic reads is `returncode` (`None` while running). -/
structure ProcState where
  returncode : Option Int

/-- Status of an asyncio task: a cancelled or completed task is `done()`. -/
inductive TaskStatus where
  | running
  | finished
  | cancelledTask

/-- `if task and not task.done(): task.cancel()` from `_disconnect_async`. -/
def cancelTask : TaskStatus → TaskStatus
  | .running => .cancelledTask
  | st => st

/-- `task is not None and not task.done()`. -/
def taskAlive : Option TaskStatus → Bool
  | some .running => true
  | _ => false

/-- The client-visible state of a `BackgroundMCPClient`:
`_request_id_counter`, `_pending_requests`, `is_connected`, `_keep_alive`,
`process`, `_reader_task`, `_stderr_task`, and whether `_loop` is set and
running (`loopRunning`). -/
structure ClientState where
  requestIdCounter : Nat
  pending : PendingTable
  isConnected : Bool
  keepAlive : Bool
  process : Option ProcState
  readerTask : Option TaskStatus
  stderrTask : Option TaskStatus
  loopRunning : Bool

/-- The state `BackgroundMCPClient.__init__` builds (no loop yet). -/
def initialClientState : ClientState :=
  { requestIdCounter := 0, pending := [], isConnected := false,
    keepAlive := true, process := none, readerTask := none,
    stderrTask := none, loopRunning := false }

/-- `BackgroundMCPClient._get_next_request_id` (lines 73-75): increment
`_request_id_counter`, return `str` of the new value. -/
def getNextRequestId (counter : Nat) : String × Nat :=
  (pyStrNat (counter + 1), counter + 1)

/-- Registration step of `_send_request_and_wait_async` (lines 233-235):
draw the next id, create a fresh unresolved future and assign
`self._pending_requests[request_id] = future` — a plain dict assignment
with no duplicate-id check. -/
def registerRequest (s : ClientState) : String × ClientState :=
  let rid := (getNextRequestId s.requestIdCounter).1
  (rid,
   { s with requestIdCounter := (getNextRequestId s.requestIdCounter).2,
            pending := setKey s.pending rid .pending })

/-- Timeout branch of `_send_request_and_wait_async` (lines 249-254): on
`asyncio.TimeoutError` the entry is popped
(`self._pending_requests.pop(request_id, None)`) and an `MCPError` with
code -32003 is raised; the second component is its details dict. -/
def timeoutStep (s : ClientState) (rid : String) (method : String) :
    ClientState × JVal :=
  ({ s with pending := eraseKey s.pending rid },
   errDetails (-32003) ("Request timed out: " ++ method))

/-- `BackgroundMCPClient.is_healthy` (lines 374-384). -/
def is_healthy (s : ClientState) : Bool :=
  s.isConnected &&
    (match s.process with
     | some p => p.returncode.isNone
     | none => false) &&
    taskAlive s.readerTask && taskAlive s.stderrTask

/-- `BackgroundMCPClient._disconnect_async` (lines 314-359): clears
`_keep_alive`, sends the `exit` notification (no client-state effect),
cancels both reader tasks, closes stdin and terminates/kills the
subprocess — mutations of the process handle that are then discarded by
`self.process = None` — and clears `is_connected`.  No statement in the
method reads or writes `_pending_requests`, so `pending` is unchanged. -/
def disconnectAsync (s : ClientState) : ClientState :=
  { s with keepAlive := false,
           readerTask := s.readerTask.map cancelTask,
           stderrTask := s.stderrTask.map cancelTask,
           process := none,
           isConnected := false }

/-- `BackgroundMCPClient.disconnect` (lines 361-372): when the background
loop is running, marshal `_disconnect_async` onto it (any failure of that
future is caught and logged); otherwise fall back to `self.process.kill()`
— an OS signal that mutates no client attribute — and in both cases
finish with `self.is_connected = False`. -/
def disconnect (s : ClientState) : ClientState :=
  if s.loopRunning then
    let s2 := disconnectAsync s
    { s2 with isConnected := false }
  else
    { s with isConnected := false }

/-- One line-shaped event seen by `_stdout_reader` (lines 77-103): a line
`json.loads` rejects (logged, loop continues), a line that is empty after
`strip` (skipped), or a decoded JSON message. -/
inductive LineEvent where
  | malformedLine
  | blank
  | message (j : JVal)

/-- Per-line body of `_stdout_reader`'s loop: a malformed line only logs
(`except json.JSONDecodeError: logger.error(...)`), a blank line is
skipped, a decoded message goes to `_handle_response`. -/
def processLine (t : PendingTable) (e : LineEvent) : PendingTable :=
  match e with
  | .malformedLine => t
  | .blank => t
  | .message j => (handleResponse t j).table

/-- The primary pump over a sequence of lines read while the reader is
alive: `_stdout_reader` folds `processLine` over the stream (the loop
also exits on EOF, task cancellation or `_keep_alive` going false, which
truncate the list of lines seen). -/
def pumpLines (t : PendingTable) (ls : List LineEvent) : PendingTable :=
  ls.foldl processLine t

/-- Outcome of the synchronous `concurrent.futures.Future.result(timeout)`
wait that `connect` / `_send_request_and_wait` performs after marshalling
the coroutine onto the background loop: the coroutine's value, an
`MCPError` it raised (carrying its details dict), or any other exception
— including the wait's own `TimeoutError` when the bound expires. -/
inductive FutureWait (α : Type) where
  | value (v : α)
  | raisedMCP (details : JVal)
  | raisedOther (msg : String)

/-- The bound `connect` passes to its blocking wait
(line 211: `future_conn.result(timeout=self.timeout + 10)`). -/
def connectWaitBound (timeout : ℚ) : ℚ := timeout + 10

/-- The bound `_send_request_and_wait` passes to its blocking wait
(line 266: `future_req.result(timeout=self.timeout + 5)`). -/
def requestWaitBound (timeout : ℚ) : ℚ := timeout + 5

/-- `BackgroundMCPClient.connect` (lines 204-214) as a function of the
bounded-wait outcome: `False` when the background loop is not running,
the coroutine's boolean when the wait completes, `False` on every
exception (`except Exception: return False`). -/
def connect (loopRunning : Bool) (w : FutureWait Bool) : Bool :=
  if !loopRunning then false
  else
    match w with
    | .value b => b
    | .raisedMCP _ => false
    | .raisedOther _ => false

/-- `BackgroundMCPClient._send_request_and_wait` (lines 259-270) as a
function of the bounded-wait outcome: an immediate -32001 `MCPError` when
the loop is not running; the value on completion; a re-raised `MCPError`
unchanged; any other exception (including the wait's own timeout)
wrapped into a -32000 `MCPError`.  `.error` carries the raised
`MCPError`'s details dict. -/
def sendRequestAndWaitSync (loopRunning : Bool) (method : String)
    (w : FutureWait JVal) : Except JVal JVal :=
  if !loopRunning then
    .error (errDetails (-32001) "Client background loop not running")
  else
    match w with
    | .value v => .ok v
    | .raisedMCP details => .error details
    | .raisedOther msg =>
        .error (errDetails (-32000) ("Failed to execute " ++ method ++ ": " ++ msg))

/-- A Python exception raised inside the body of `call_tool` and caught by
its handlers. -/
inductive PyExn where
  | typeErr (msg : String)
  | keyErr (msg : String)
  | jsonDecodeErr (msg : String)

/-- Python substring test `needle in hay` on strings. -/
def pySubstr (needle hay : String) : Bool :=
  needle == "" || (hay.splitOn needle).length ≥ 2

/-- Python `k in x` for a string `k` and a JSON value `x`: key membership
on a dict, element membership on a list (only an equal string matches a
string), substring test on a string, `TypeError` otherwise. -/
def pyContains (x : JVal) (k : String) : Except PyExn Bool :=
  match x with
  | .jobj _ => .ok (hasKey x k)
  | .jarr elems =>
      .ok (elems.any (fun e => match e with | .jstr s => s == k | _ => false))
  | .jstr s => .ok (pySubstr k s)
  | _ => .error (.typeErr "argument is not iterable")

/-- Python `x[k]` for a string key `k`: field access on a dict (KeyError
when absent), `TypeError` on a string or list (indices must be integers)
or any non-subscriptable value. -/
def pySubscriptStr (x : JVal) (k : String) : Except PyExn JVal :=
  match x with
  | .jobj fields =>
      match fields.lookup k with
      | some v => .ok v
      | none => .error (.keyErr k)
  | .jstr _ => .error (.typeErr "string indices must be integers")
  | .jarr _ => .error (.typeErr "list indices must be integers")
  | _ => .error (.typeErr "object is not subscriptable")

/-- The guard on line 280 of `call_tool`, with Python short-circuit
evaluation: `result and "content" in result and result["content"] and
isinstance(result["content"], list) and "text" in result["content"][0]`.
A truthy list is nonempty, so `[0]` in the last conjunct cannot fail. -/
def toolGuard (result : JVal) : Except PyExn Bool :=
  if !pyTruthy result then .ok false
  else
    match pyContains result "content" with
    | .error e => .error e
    | .ok false => .ok false
    | .ok true =>
        match pySubscriptStr result "content" with
        | .error e => .error e
        | .ok contentVal =>
            if !pyTruthy contentVal then .ok false
            else
              match contentVal with
              | .jarr (e0 :: _) => pyContains e0 "text"
              | .jarr [] => .ok false
              | _ => .ok false

/-- The `try` body of `call_tool` after `_send_request_and_wait`
returned `result` (lines 280-283): evaluate the guard; when it fails
return the `{"error": "Malformed tool response"}` dict; when it holds
compute `json.loads(result["content"][0]["text"])`, where `json.loads`
raises `TypeError` on a non-string argument and `JSONDecodeError`
(modelled by the abstract decoder `parse` returning `.error`) on an
undecodable one. -/
def callToolSuccessBody (parse : String → Except String JVal)
    (result : JVal) : Except PyExn JVal :=
  match toolGuard result with
  | .error e => .error e
  | .ok false => .ok (.jobj [("error", .jstr "Malformed tool response")])
  | .ok true =>
      match pySubscriptStr result "content" with
      | .error e => .error e
      | .ok contentVal =>
          match contentVal with
          | .jarr (e0 :: _) =>
              match pySubscriptStr e0 "text" with
              | .error e => .error e
              | .ok (.jstr s) =>
                  match parse s with
                  | .ok v => .ok v
                  | .error m => .error (.jsonDecodeErr m)
              | .ok _ =>
                  .error (.typeErr "the JSON object must be str, bytes or bytearray")
          | _ => .error (.typeErr "guard ensured a nonempty list here")

/-- `str(e)` of an `MCPError`: its constructor passes
`details.get("message", "Unknown MCP error")` to `Exception.__init__`. -/
def mcpErrorStr (details : JVal) : String :=
  pyStr ((rawGet details "message").getD (.jstr "Unknown MCP error"))

/-- `BackgroundMCPClient.call_tool` (lines 272-292) as a function of the
abstract JSON decoder and the bounded-wait outcome of the underlying
`tools/call` request.  Unhealthy client: an `{"error": ...}` dict without
touching the transport.  `MCPError` from the transport: an `{"error":
e.details.get("message", str(e))}` dict.  Success value: the structure
check and decode of `callToolSuccessBody`, whose `JSONDecodeError` and
generic exception handlers each produce an `{"error": ...}` dict. -/
def call_tool (parse : String → Except String JVal) (s : ClientState)
    (toolName : String) (w : FutureWait JVal) : JVal :=
  if !is_healthy s then
    .jobj [("error", .jstr ("MCP client not healthy. Cannot call tool: " ++ toolName ++ "."))]
  else
    match sendRequestAndWaitSync s.loopRunning "tools/call" w with
    | .error details =>
        .jobj [("error", (rawGet details "message").getD (.jstr (mcpErrorStr details)))]
    | .ok result =>
        match callToolSuccessBody parse result with
        | .ok v => v
        | .error (.jsonDecodeErr m) =>
            .jobj [("error", .jstr ("Tool response JSON decode error: " ++ m))]
        | .error (.typeErr m) => .jobj [("error", .jstr m)]
        | .error (.keyErr m) => .jobj [("error", .jstr m)]

/-- `result["content"][0]["text"]` read off a tool-call result, for
stating what "the first content item's text field" is. -/
def firstContentText (result : JVal) : Option JVal :=
  match rawGet result "content" with
  | some (.jarr (e0 :: _)) => rawGet e0 "text"
  | _ => none

/-- Escaping of one character for `json.dumps` (backslash and quote; the
payloads this server serializes contain no control characters). -/
def jsonEscapeChar (c : Char) : String :=
  if c == '\\' then "\\\\"
  else if c == '\"' then "\\\""
  else String.singleton c

/-- Escaping of a string body for `json.dumps`. -/
def jsonEscape (s : String) : String :=
  String.join (s.data.map jsonEscapeChar)

mutual

/-- Python `json.dumps` with its default separators. -/
def jsonDumps : JVal → String
  | .jnull => "null"
  | .jbool true => "true"
  | .jbool false => "false"
  | .jnum n => pyStrInt n
  | .jstr s => "\"" ++ jsonEscape s ++ "\""
  | .jarr elems => "[" ++ String.intercalate ", " (jsonDumpsList elems) ++ "]"
  | .jobj fields =>
      "\x7b" ++ String.intercalate ", " (jsonDumpsFields fields) ++ "\x7d"

/-- Serializations of the elements of a JSON array, for `jsonDumps`. -/
def jsonDumpsList : List JVal → List String
  | [] => []
  | e :: rest => jsonDumps e :: jsonDumpsList rest

/-- Serializations of the fields of a JSON object, for `jsonDumps`. -/
def jsonDumpsFields : List (String × JVal) → List String
  | [] => []
  | (k, v) :: rest =>
      ("\"" ++ jsonEscape k ++ "\": " ++ jsonDumps v) :: jsonDumpsFields rest

end

/-- `send_response` (src/mcp_bakery_server.py lines 74-80): the message
starts as `{"jsonrpc": "2.0", "id": response_id}` and the `result` /
`error` fields are added only when the corresponding Python argument is
not `None`.  `responseId` is the Python value passed for the id
(`none` = Python `None`, serialized as JSON null). -/
def send_response (responseId : Option JVal) (result : Option JVal)
    (error : Option JVal) : JVal :=
  .jobj ([("jsonrpc", .jstr "2.0"), ("id", responseId.getD .jnull)]
    ++ (match result with | some r => [("result", r)] | none => [])
    ++ (match error with | some e => [("error", e)] | none => []))

/-- `create_error_response` (lines 82-85): `{"code": ..., "message": ...}`
plus `data` when that argument is truthy (`if data:`). -/
def create_error_response (code : Int) (message : String)
    (data : Option JVal) : JVal :=
  .jobj ([("code", .jnum code), ("message", .jstr message)]
    ++ (match data with
        | some d => if pyTruthy d then [("data", d)] else []
        | none => []))

/-- `format_tool_call_response_content` (lines 87-88). -/
def format_tool_call_response_content (dataPayload : JVal) : JVal :=
  .jobj [("content", .jarr [.jobj
    [("type", .jstr "text"), ("text", .jstr (jsonDumps dataPayload))]])]

/-- `format_resource_read_response_content` (lines 90-91). -/
def format_resource_read_response_content (dataPayload : JVal) : JVal :=
  .jobj [("contents", .jarr [.jobj
    [("type", .jstr "text"), ("text", .jstr (jsonDumps dataPayload))]])]

/-- The `"result": {"capabilities": ...}` payload of the `initialize`
response (lines 429-436). -/
def initializeResult : JVal :=
  .jobj [("capabilities", .jobj [("experimental", .jobj
    [("bakeryTools", .jbool true), ("assistantChat", .jbool true)])])]

/-- The keys of the server's `TOOLS` registry (lines 274-280). -/
def toolNames : List String :=
  ["get_popular_products", "get_product_recommendations", "search_products",
   "get_product_details", "assistant_chat"]

/-- The keys of the server's `RESOURCES` registry (lines 413-416). -/
def resourceNames : List String :=
  ["bakery://products/all", "bakery://products/categories"]

/-- Abstraction of the dynamic parts of a request's handling: the outcome
of `TOOLS[tool_name](tool_arguments)` / `RESOURCES[uri]()` — a data
payload, or an exception message for the `except` branches (these bodies
call out to the LLM endpoint and are external to the dispatch logic). -/
structure ServerEnv where
  toolOutcome : Except String JVal
  resourceOutcome : Except String JVal

/-- What one `handle_request` call does: emit response lines and return;
emit nothing and `sys.exit(0)` (the `exit` method); or let an exception
escape (which terminates the server's main loop). -/
inductive ServerStep where
  | emits (msgs : List JVal)
  | exitsServer
  | crashes

/-- Python `str` of an optional value (`None` renders as "None"),
for f-string interpolation in server error messages. -/
def pyStrOpt : Option JVal → String
  | none => "None"
  | some v => pyStr v

/-- Python `method == "literal"`: only an equal string compares equal. -/
def isMethod (method : Option JVal) (s : String) : Bool :=
  match method with
  | some (.jstr t) => t == s
  | _ => false

/-- `request_obj.get("params", {})` (line 422): the default `{}` only
when the key is absent; an explicit JSON null gives Python `None`. -/
def paramsOf (req : JVal) : Option JVal :=
  match rawGet req "params" with
  | none => some (.jobj [])
  | some .jnull => none
  | some v => some v

/-- The `tools/call` branch of `handle_request` (lines 439-460), given the
`name` argument already read from params.  `tool_name in TOOLS` raises
`TypeError` on an unhashable value (list or dict); a hashable non-key
value falls to the "Tool not found" error. -/
def toolsCallStep (env : ServerEnv) (reqId : Option JVal)
    (toolName : Option JVal) : ServerStep :=
  match toolName with
  | some (.jstr s) =>
      if toolNames.contains s then
        match env.toolOutcome with
        | .ok dataPayload =>
            .emits [send_response reqId
              (some (format_tool_call_response_content dataPayload)) none]
        | .error msg =>
            .emits [send_response reqId none
              (some (create_error_response (-32000)
                ("Server error executing tool " ++ s ++ ": " ++ msg) none))]
      else
        .emits [send_response reqId none
          (some (create_error_response (-32601) ("Tool not found: " ++ s) none))]
  | some (.jarr _) => .crashes
  | some (.jobj _) => .crashes
  | other =>
      .emits [send_response reqId none
        (some (create_error_response (-32601)
          ("Tool not found: " ++ pyStrOpt other) none))]

/-- The `resources/read` branch of `handle_request` (lines 462-473). -/
def resourcesReadStep (env : ServerEnv) (reqId : Option JVal)
    (uri : Option JVal) : ServerStep :=
  match uri with
  | some (.jstr s) =>
      if resourceNames.contains s then
        match env.resourceOutcome with
        | .ok dataPayload =>
            .emits [send_response reqId
              (some (format_resource_read_response_content dataPayload)) none]
        | .error msg =>
            .emits [send_response reqId none
              (some (create_error_response (-32000)
                ("Server error reading resource " ++ s ++ ": " ++ msg) none))]
      else
        .emits [send_response reqId none
          (some (create_error_response (-32601) ("Resource not found: " ++ s) none))]
  | some (.jarr _) => .crashes
  | some (.jobj _) => .crashes
  | other =>
      .emits [send_response reqId none
        (some (create_error_response (-32601)
          ("Resource not found: " ++ pyStrOpt other) none))]

/-- `handle_request` (src/mcp_bakery_server.py lines 419-482).  A non-dict
request object makes the initial `.get` raise (the main loop's outer
handler then stops the server); `params.get(...)` likewise crashes when
`params` is not a dict.  `if not method:` and `if req_id:` are Python
truthiness tests; method dispatch compares against string literals, so a
non-string method falls to the unknown-method branch. -/
def handle_request (env : ServerEnv) (req : JVal) : ServerStep :=
  match req with
  | .jobj _ =>
      let reqId := pyGet req "id"
      let method := pyGet req "method"
      let params := paramsOf req
      let reqIdTruthy := match reqId with | some v => pyTruthy v | none => false
      let methodTruthy := match method with | some v => pyTruthy v | none => false
      if !methodTruthy then
        if reqIdTruthy then
          .emits [send_response reqId none
            (some (create_error_response (-32600) "Invalid Request: Missing method" none))]
        else .emits []
      else if isMethod method "initialize" then
        .emits [send_response reqId (some initializeResult) none]
      else if isMethod method "initialized" then
        .emits []
      else if isMethod method "tools/call" then
        match params with
        | some (.jobj _) => toolsCallStep env reqId (pyGet (params.getD .jnull) "name")
        | _ => .crashes
      else if isMethod method "resources/read" then
        match params with
        | some (.jobj _) => resourcesReadStep env reqId (pyGet (params.getD .jnull) "uri")
        | _ => .crashes
      else if isMethod method "shutdown" then
        if reqIdTruthy then .emits [send_response reqId none none]
        else .emits []
      else if isMethod method "exit" then
        .exitsServer
      else
        if reqIdTruthy then
          .emits [send_response reqId none
            (some (create_error_response (-32601)
              ("Method not found: " ++ pyStrOpt method) none))]
        else .emits []
  | _ => .crashes

/-- Value of a most-significant-first digit list. -/
def digitsVal (ds : List Nat) : Nat :=
  ds.foldl (fun a d => 10 * a + d) 0

theorem digitsVal_append_single (ds : List Nat) (d : Nat) :
    digitsVal (ds ++ [d]) = 10 * digitsVal ds + d := by
  simp [digitsVal, List.foldl_append]

theorem natDigitsAux_val :
    ∀ (fuel n : Nat), n ≤ fuel → digitsVal (natDigitsAux fuel n) = n := by
  intro fuel
  induction fuel with
  | zero =>
      intro n hn
      have h0 : n = 0 := by omega
      subst h0
      rfl
  | succ fuel ih =>
      intro n hn
      by_cases h : n < 10
      · simp [natDigitsAux, h, digitsVal]
      · have hlt : n / 10 < n := Nat.div_lt_self (by omega) (by omega)
        have hle : n / 10 ≤ fuel := by omega
        simp [natDigitsAux, h, digitsVal_append_single, ih _ hle]
        omega

theorem natDigits_val (n : Nat) : digitsVal (natDigits n) = n :=
  natDigitsAux_val n n (Nat.le_refl n)

theorem natDigits_injective {m n : Nat} (h : natDigits m = natDigits n) :
    m = n := by
  have hm := natDigits_val m
  have hn := natDigits_val n
  rw [h] at hm
  omega

theorem natDigitsAux_lt_ten :
    ∀ (fuel n : Nat), n ≤ fuel → ∀ d ∈ natDigitsAux fuel n, d < 10 := by
  intro fuel
  induction fuel with
  | zero =>
      intro n hn
      have h0 : n = 0 := by omega
      subst h0
      simp [natDigitsAux]
  | succ fuel ih =>
      intro n hn
      by_cases h : n < 10
      · simp [natDigitsAux, h]
      · have hle : n / 10 ≤ fuel := by
          have hlt : n / 10 < n := Nat.div_lt_self (by omega) (by omega)
          omega
        simp only [natDigitsAux, h, if_false, List.mem_append,
          List.mem_singleton]
        rintro d (hd | rfl)
        · exact ih _ hle d hd
        · exact Nat.mod_lt _ (by omega)

theorem natDigits_lt_ten (n : Nat) : ∀ d ∈ natDigits n, d < 10 :=
  natDigitsAux_lt_ten n n (Nat.le_refl n)

theorem digitChar_inj_lt :
    ∀ d1 < 10, ∀ d2 < 10, Nat.digitChar d1 = Nat.digitChar d2 → d1 = d2 := by
  decide

theorem map_digitChar_inj : ∀ (l1 l2 : List Nat),
    (∀ d ∈ l1, d < 10) → (∀ d ∈ l2, d < 10) →
    l1.map Nat.digitChar = l2.map Nat.digitChar → l1 = l2 := by
  intro l1
  induction l1 with
  | nil => intro l2 _ _ h; cases l2 <;> simp_all
  | cons d rest ih =>
    intro l2 h1 h2 h
    cases l2 with
    | nil => simp_all
    | cons d2 rest2 =>
      simp only [List.map_cons, List.cons.injEq] at h
      have hd : d = d2 :=
        digitChar_inj_lt d (h1 d (by simp)) d2 (h2 d2 (by simp)) h.1
      have hr : rest = rest2 :=
        ih rest2 (fun x hx => h1 x (by simp [hx]))
          (fun x hx => h2 x (by simp [hx])) h.2
      rw [hd, hr]

theorem pyStrNat_injective {m n : Nat} (h : pyStrNat m = pyStrNat n) :
    m = n := by
  unfold pyStrNat at h
  have h2 := congrArg String.data h
  exact natDigits_injective
    (map_digitChar_inj _ _ (natDigits_lt_ten m) (natDigits_lt_ten n) h2)

theorem lookup_cons (k : String) (p : String × FutureState)
    (rest : PendingTable) :
    List.lookup k (p :: rest) = if k = p.1 then some p.2 else List.lookup k rest := by
  rcases p with ⟨a, b⟩
  by_cases h : k = a
  · simp [List.lookup, h]
  · have hb : (k == a) = false := beq_eq_false_iff_ne.mpr h
    simp [List.lookup, h, hb]

theorem eraseKey_cons (p : String × FutureState) (rest : PendingTable)
    (k : String) :
    eraseKey (p :: rest) k =
      if p.1 = k then eraseKey rest k else p :: eraseKey rest k := by
  by_cases h : p.1 = k <;> simp [eraseKey, List.filter_cons, h]

theorem lookup_eraseKey_self (t : PendingTable) (k : String) :
    (eraseKey t k).lookup k = none := by
  induction t with
  | nil => rfl
  | cons p rest ih =>
    rw [eraseKey_cons]
    by_cases h : p.1 = k
    · rw [if_pos h]
      exact ih
    · rw [if_neg h, lookup_cons, if_neg (fun hk => h hk.symm)]
      exact ih

theorem lookup_eraseKey_ne (t : PendingTable) (k k2 : String) (h : k2 ≠ k) :
    (eraseKey t k).lookup k2 = t.lookup k2 := by
  induction t with
  | nil => rfl
  | cons p rest ih =>
    rw [eraseKey_cons]
    by_cases hp : p.1 = k
    · rw [if_pos hp, ih, lookup_cons, if_neg (fun hk => h (hk.trans hp))]
    · rw [if_neg hp, lookup_cons, lookup_cons]
      by_cases hk2 : k2 = p.1
      · rw [if_pos hk2, if_pos hk2]
      · rw [if_neg hk2, if_neg hk2, ih]

theorem cancelTask_idem (t : TaskStatus) :
    cancelTask (cancelTask t) = cancelTask t := by
  cases t <;> rfl

/-- A connected client with one in-flight call whose future is still
unresolved, used as a concrete input below. -/
def demoConnectedState : ClientState :=
  { requestIdCounter := 1, pending := [("1", .pending)], isConnected := true,
    keepAlive := true, process := some ⟨none⟩, readerTask := some .running,
    stderrTask := some .running, loopRunning := true }

/-- C2, counterexample: with one call pending, `disconnect()` completes
(is_connected becomes false) yet the pending entry's future is still in
the unresolved `pending` state — it was not resolved with a
`ConnectionClosed` failure (nor with anything else): `_disconnect_async`
never touches `_pending_requests`. -/
theorem c2_counterexample :
    (disconnect demoConnectedState).pending.lookup "1" = some FutureState.pending ∧
    (disconnect demoConnectedState).isConnected = false :=
  ⟨rfl, rfl⟩

/-- C2, amended: `disconnect()` (and its async body) leaves the
pending-call table exactly as it was — no pending entry is resolved with a
`ConnectionClosed` failure (or with anything else) and none is removed;
each waiting caller is left to fail through its own request timeout.
`disconnect` does set `is_connected` to false. -/
theorem c2_disconnect_leaves_pending_untouched (s : ClientState) :
    (disconnectAsync s).pending = s.pending ∧
    (disconnect s).pending = s.pending ∧
    (disconnect s).isConnected = false := by
  refine ⟨rfl, ?_, ?_⟩ <;> unfold disconnect <;> split <;> rfl

/-- C7: `disconnect()` is idempotent — a second call produces the same
state as the first — and the state after it is disconnected
(`is_connected = false`, `process = None`, the latter under the
reachable-state hypothesis that the background loop is running whenever a
process handle exists); calling it on a freshly constructed client on
which `connect()` was never called changes nothing and raises nothing. -/
theorem c7_disconnect_idempotent (s : ClientState)
    (h : s.loopRunning = true ∨ s.process = none) :
    disconnect (disconnect s) = disconnect s ∧
    (disconnect s).isConnected = false ∧
    (disconnect s).process = none ∧
    disconnect initialClientState = initialClientState := by
  have map_idem : ∀ o : Option TaskStatus,
      (o.map cancelTask).map cancelTask = o.map cancelTask := by
    intro o
    cases o with
    | none => rfl
    | some t => simp [Option.map, cancelTask_idem]
  refine ⟨?_, ?_, ?_, rfl⟩
  · unfold disconnect disconnectAsync
    by_cases hl : s.loopRunning <;> simp [hl, map_idem]
  · unfold disconnect
    split <;> rfl
  · rcases h with h | h
    · unfold disconnect disconnectAsync
      simp [h]
    · unfold disconnect
      split
      · rfl
      · simpa using h

/-- Witness for C7 at the concrete connected state. -/
theorem c7_witness :
    (demoConnectedState.loopRunning = true ∨ demoConnectedState.process = none) ∧
    (disconnect (disconnect demoConnectedState) = disconnect demoConnectedState ∧
     (disconnect demoConnectedState).isConnected = false ∧
     (disconnect demoConnectedState).process = none ∧
     disconnect initialClientState = initialClientState) :=
  ⟨Or.inl rfl, c7_disconnect_idempotent demoConnectedState (Or.inl rfl)⟩

/-- C5: a malformed line between two valid response lines does not stop
the primary pump: folding the reader over `pre ++ [valid v1, malformed,
valid v2] ++ post` skips the malformed line and dispatches both `v1` and
`v2` to `_handle_response`, then keeps processing `post`. -/
theorem c5_pump_survives_malformed_line (t : PendingTable)
    (pre post : List LineEvent) (v1 v2 : JVal) :
    pumpLines t (pre ++ [.message v1, .malformedLine, .message v2] ++ post) =
      pumpLines
        ((handleResponse ((handleResponse (pumpLines t pre) v1).table) v2).table)
        post := by
  simp [pumpLines, List.foldl_append, processLine]

/-- C4: a call that times out pops its own pending entry and fails with
the -32003 "Request timed out" MCPError, and a response bearing that same
id arriving afterwards is dropped by `_handle_response`: it raises
nothing, resolves nothing (`resolved = none`) and leaves the table —
including every other entry — unchanged. -/
theorem c4_timeout_purges_entry_and_drops_late_response
    (s : ClientState) (method : String) (r idv : JVal)
    (hid : pyGet r "id" = some idv) :
    (timeoutStep s (pyStr idv) method).2 =
      errDetails (-32003) ("Request timed out: " ++ method) ∧
    (timeoutStep s (pyStr idv) method).1.pending.lookup (pyStr idv) = none ∧
    (∀ k, k ≠ pyStr idv →
      (timeoutStep s (pyStr idv) method).1.pending.lookup k = s.pending.lookup k) ∧
    handleResponse (timeoutStep s (pyStr idv) method).1.pending r =
      ⟨(timeoutStep s (pyStr idv) method).1.pending, none⟩ := by
  have hnone : (timeoutStep s (pyStr idv) method).1.pending.lookup (pyStr idv) = none :=
    lookup_eraseKey_self _ _
  refine ⟨rfl, hnone, fun k hk => lookup_eraseKey_ne _ _ _ hk, ?_⟩
  simp [handleResponse, hid, hnone]

/-- Witness for C4: a one-entry table, the entry popped by timeout, and a
late response for the same id. -/
theorem c4_witness :
    pyGet (JVal.jobj [("jsonrpc", .jstr "2.0"), ("id", .jstr "1"), ("result", .jnum 7)]) "id" =
      some (JVal.jstr "1") ∧
    ((timeoutStep demoConnectedState (pyStr (JVal.jstr "1")) "tools/call").2 =
      errDetails (-32003) ("Request timed out: " ++ "tools/call") ∧
    (timeoutStep demoConnectedState (pyStr (JVal.jstr "1")) "tools/call").1.pending.lookup
        (pyStr (JVal.jstr "1")) = none ∧
    (∀ k, k ≠ pyStr (JVal.jstr "1") →
      (timeoutStep demoConnectedState (pyStr (JVal.jstr "1")) "tools/call").1.pending.lookup k =
        demoConnectedState.pending.lookup k) ∧
    handleResponse (timeoutStep demoConnectedState (pyStr (JVal.jstr "1")) "tools/call").1.pending
        (JVal.jobj [("jsonrpc", .jstr "2.0"), ("id", .jstr "1"), ("result", .jnum 7)]) =
      ⟨(timeoutStep demoConnectedState (pyStr (JVal.jstr "1")) "tools/call").1.pending, none⟩) :=
  ⟨rfl, c4_timeout_purges_entry_and_drops_late_response demoConnectedState "tools/call"
    (JVal.jobj [("jsonrpc", .jstr "2.0"), ("id", .jstr "1"), ("result", .jnum 7)])
    (JVal.jstr "1") rfl⟩

/-- C3: a response whose id was never registered leaves the client
completely unchanged (no exception, no future touched, table as before);
a response whose popped entry's future is already done removes that entry
but fulfils nothing — the future keeps its prior state — and every other
entry of the table is untouched. -/
theorem c3_unmatched_response_is_dropped (t : PendingTable) (r idv : JVal)
    (hid : pyGet r "id" = some idv) :
    (t.lookup (pyStr idv) = none → handleResponse t r = ⟨t, none⟩) ∧
    (∀ fs, t.lookup (pyStr idv) = some fs → fs ≠ FutureState.pending →
      (handleResponse t r).table = eraseKey t (pyStr idv) ∧
      (handleResponse t r).resolved = some (pyStr idv, fs) ∧
      ∀ k, k ≠ pyStr idv → (handleResponse t r).table.lookup k = t.lookup k) := by
  constructor
  · intro hnone
    simp [handleResponse, hid, hnone]
  · intro fs hsome hne
    cases fs with
    | pending => exact absurd rfl hne
    | doneResult v =>
        exact ⟨by simp [handleResponse, hid, hsome],
               by simp [handleResponse, hid, hsome],
               fun k hk => by
                 simp [handleResponse, hid, hsome, lookup_eraseKey_ne _ _ _ hk]⟩
    | doneError d =>
        exact ⟨by simp [handleResponse, hid, hsome],
               by simp [handleResponse, hid, hsome],
               fun k hk => by
                 simp [handleResponse, hid, hsome, lookup_eraseKey_ne _ _ _ hk]⟩
    | cancelledFut =>
        exact ⟨by simp [handleResponse, hid, hsome],
               by simp [handleResponse, hid, hsome],
               fun k hk => by
                 simp [handleResponse, hid, hsome, lookup_eraseKey_ne _ _ _ hk]⟩

/-- Witness for C3: an unknown id against the demo table, and an
already-done entry. -/
theorem c3_witness :
    pyGet (JVal.jobj [("id", .jstr "99"), ("result", .jnum 1)]) "id" =
      some (JVal.jstr "99") ∧
    ((demoConnectedState.pending.lookup (pyStr (JVal.jstr "99")) = none →
      handleResponse demoConnectedState.pending
        (JVal.jobj [("id", .jstr "99"), ("result", .jnum 1)]) =
        ⟨demoConnectedState.pending, none⟩) ∧
    (∀ fs, demoConnectedState.pending.lookup (pyStr (JVal.jstr "99")) = some fs →
      fs ≠ FutureState.pending →
      (handleResponse demoConnectedState.pending
          (JVal.jobj [("id", .jstr "99"), ("result", .jnum 1)])).table =
        eraseKey demoConnectedState.pending (pyStr (JVal.jstr "99")) ∧
      (handleResponse demoConnectedState.pending
          (JVal.jobj [("id", .jstr "99"), ("result", .jnum 1)])).resolved =
        some (pyStr (JVal.jstr "99"), fs) ∧
      ∀ k, k ≠ pyStr (JVal.jstr "99") →
        (handleResponse demoConnectedState.pending
            (JVal.jobj [("id", .jstr "99"), ("result", .jnum 1)])).table.lookup k =
          demoConnectedState.pending.lookup k)) :=
  ⟨rfl, c3_unmatched_response_is_dropped demoConnectedState.pending
    (JVal.jobj [("id", .jstr "99"), ("result", .jnum 1)]) (JVal.jstr "99") rfl⟩

theorem lookupKey_cons {α : Type} (k : String) (p : String × α)
    (rest : List (String × α)) :
    List.lookup k (p :: rest) = if k = p.1 then some p.2 else List.lookup k rest := by
  rcases p with ⟨a, b⟩
  by_cases h : k = a
  · simp [List.lookup, h]
  · have hb : (k == a) = false := beq_eq_false_iff_ne.mpr h
    simp [List.lookup, h, hb]

theorem lookup_any_key {α : Type} {l : List (String × α)} {k : String} {v : α}
    (h : l.lookup k = some v) : (l.any fun p => p.1 == k) = true := by
  induction l with
  | nil => simp [List.lookup] at h
  | cons p rest ih =>
      rcases p with ⟨a, b⟩
      by_cases hk : k = a
      · subst hk
        simp [List.any_cons]
      · have hb : (k == a) = false := beq_eq_false_iff_ne.mpr hk
        simp only [List.lookup, hb] at h
        have hb2 : (a == k) = false :=
          beq_eq_false_iff_ne.mpr (fun he => hk he.symm)
        simp [List.any_cons, hb2, ih h]

theorem exists_key_of_lookup_some {α : Type} {l : List (String × α)}
    {k : String} {v : α} (h : l.lookup k = some v) : ∃ p ∈ l, p.1 = k := by
  induction l with
  | nil => simp [List.lookup] at h
  | cons p rest ih =>
      rcases p with ⟨a, b⟩
      by_cases hk : k = a
      · exact ⟨(a, b), by simp, hk.symm⟩
      · have hb : (k == a) = false := beq_eq_false_iff_ne.mpr hk
        simp only [List.lookup, hb] at h
        obtain ⟨q, hq, hqk⟩ := ih h
        exact ⟨q, by simp [hq], hqk⟩

theorem lookup_none_of_no_key {α : Type} (l : List (String × α)) (k : String)
    (h : ∀ p ∈ l, p.1 ≠ k) : l.lookup k = none := by
  induction l with
  | nil => rfl
  | cons p rest ih =>
      have hb : (k == p.1) = false :=
        beq_eq_false_iff_ne.mpr (fun he => h p (by simp) he.symm)
      rcases p with ⟨a, b⟩
      simp only [List.lookup, hb]
      exact ih (fun q hq => h q (by simp [hq]))

theorem any_key_false_of_no_key {α : Type} (l : List (String × α)) (k : String)
    (h : ∀ p ∈ l, p.1 ≠ k) : (l.any fun p => p.1 == k) = false := by
  induction l with
  | nil => rfl
  | cons p rest ih =>
      have hb : (p.1 == k) = false := beq_eq_false_iff_ne.mpr (h p (by simp))
      simp [List.any_cons, hb, ih (fun q hq => h q (by simp [hq]))]

theorem hasKey_of_rawGet {j : JVal} {k : String} {v : JVal}
    (h : rawGet j k = some v) : hasKey j k = true := by
  cases j with
  | jobj fields => exact lookup_any_key h
  | jnull => simp [rawGet] at h
  | jbool b => simp [rawGet] at h
  | jnum n => simp [rawGet] at h
  | jstr s => simp [rawGet] at h
  | jarr elems => simp [rawGet] at h

/-- C1: a response whose id (coerced to string by `str`) matches a
still-pending entry pops exactly that entry — afterwards its id is gone
from the table and every other entry is untouched — and fulfils its
future: with the result value when a `result` field is present, with an
`MCPError` carrying the response's error object otherwise; and request
ids come from a monotonically increasing counter, so ids drawn at
different counter values never coincide and no two in-flight requests
share an id. -/
theorem c1_response_resolves_exactly_matching_entry
    (t : PendingTable) (r idv : JVal)
    (hid : pyGet r "id" = some idv)
    (hpend : t.lookup (pyStr idv) = some FutureState.pending) :
    (handleResponse t r).table = eraseKey t (pyStr idv) ∧
    (handleResponse t r).table.lookup (pyStr idv) = none ∧
    (∀ k, k ≠ pyStr idv → (handleResponse t r).table.lookup k = t.lookup k) ∧
    (hasKey r "result" = true →
      (handleResponse t r).resolved =
        some (pyStr idv, .doneResult ((rawGet r "result").getD .jnull))) ∧
    (hasKey r "result" = false → ∀ fields,
      rawGet r "error" = some (.jobj fields) →
      (handleResponse t r).resolved = some (pyStr idv, .doneError (.jobj fields))) ∧
    (∀ m n : Nat, m ≠ n → (getNextRequestId m).1 ≠ (getNextRequestId n).1) ∧
    (∀ m : Nat, (getNextRequestId m).2 = m + 1) := by
  have htab : (handleResponse t r).table = eraseKey t (pyStr idv) := by
    simp only [handleResponse, hid, hpend]
    split
    · rfl
    · split
      · split <;> rfl
      · rfl
  refine ⟨htab, ?_, ?_, ?_, ?_, ?_, fun m => rfl⟩
  · rw [htab]
    exact lookup_eraseKey_self _ _
  · intro k hk
    rw [htab]
    exact lookup_eraseKey_ne _ _ _ hk
  · intro hres
    simp [handleResponse, hid, hpend, hres]
  · intro hres fields herr
    have hk := hasKey_of_rawGet herr
    simp [handleResponse, hid, hpend, hres, hk, herr]
  · intro m n hmn heq
    have := pyStrNat_injective heq
    omega

/-- Witness for C1: a two-entry table and a result response for id "1". -/
theorem c1_witness :
    pyGet (JVal.jobj [("jsonrpc", .jstr "2.0"), ("id", .jstr "1"), ("result", .jnum 42)]) "id" =
      some (JVal.jstr "1") ∧
    ([("1", FutureState.pending), ("2", FutureState.pending)] : PendingTable).lookup
      (pyStr (JVal.jstr "1")) = some FutureState.pending ∧
    ((handleResponse [("1", FutureState.pending), ("2", FutureState.pending)]
        (JVal.jobj [("jsonrpc", .jstr "2.0"), ("id", .jstr "1"), ("result", .jnum 42)])).table =
      eraseKey [("1", FutureState.pending), ("2", FutureState.pending)] (pyStr (JVal.jstr "1")) ∧
    (handleResponse [("1", FutureState.pending), ("2", FutureState.pending)]
        (JVal.jobj [("jsonrpc", .jstr "2.0"), ("id", .jstr "1"), ("result", .jnum 42)])).table.lookup
      (pyStr (JVal.jstr "1")) = none ∧
    (∀ k, k ≠ pyStr (JVal.jstr "1") →
      (handleResponse [("1", FutureState.pending), ("2", FutureState.pending)]
          (JVal.jobj [("jsonrpc", .jstr "2.0"), ("id", .jstr "1"), ("result", .jnum 42)])).table.lookup k =
        ([("1", FutureState.pending), ("2", FutureState.pending)] : PendingTable).lookup k) ∧
    (hasKey (JVal.jobj [("jsonrpc", .jstr "2.0"), ("id", .jstr "1"), ("result", .jnum 42)]) "result" = true →
      (handleResponse [("1", FutureState.pending), ("2", FutureState.pending)]
          (JVal.jobj [("jsonrpc", .jstr "2.0"), ("id", .jstr "1"), ("result", .jnum 42)])).resolved =
        some (pyStr (JVal.jstr "1"), .doneResult
          ((rawGet (JVal.jobj [("jsonrpc", .jstr "2.0"), ("id", .jstr "1"), ("result", .jnum 42)]) "result").getD .jnull))) ∧
    (hasKey (JVal.jobj [("jsonrpc", .jstr "2.0"), ("id", .jstr "1"), ("result", .jnum 42)]) "result" = false →
      ∀ fields,
      rawGet (JVal.jobj [("jsonrpc", .jstr "2.0"), ("id", .jstr "1"), ("result", .jnum 42)]) "error" =
        some (.jobj fields) →
      (handleResponse [("1", FutureState.pending), ("2", FutureState.pending)]
          (JVal.jobj [("jsonrpc", .jstr "2.0"), ("id", .jstr "1"), ("result", .jnum 42)])).resolved =
        some (pyStr (JVal.jstr "1"), .doneError (.jobj fields))) ∧
    (∀ m n : Nat, m ≠ n → (getNextRequestId m).1 ≠ (getNextRequestId n).1) ∧
    (∀ m : Nat, (getNextRequestId m).2 = m + 1)) :=
  ⟨rfl, rfl, c1_response_resolves_exactly_matching_entry
    [("1", FutureState.pending), ("2", FutureState.pending)]
    (JVal.jobj [("jsonrpc", .jstr "2.0"), ("id", .jstr "1"), ("result", .jnum 42)])
    (JVal.jstr "1") rfl rfl⟩

/-- A client state in which id "1" is (artificially) already bound in the
pending table while the id counter stands at 0, so the next generated id
collides with it. -/
def duplicateIdState : ClientState :=
  { requestIdCounter := 0, pending := [("1", .doneResult .jnull)],
    isConnected := true, keepAlive := true, process := some ⟨none⟩,
    readerTask := some .running, stderrTask := some .running,
    loopRunning := true }

/-- C6, counterexample: registration has no duplicate-id guard.  From a
state whose table already binds id "1", drawing the next id yields "1"
again and the plain dict assignment silently replaces the existing slot
(its bound future state changes from `doneResult` to a fresh unresolved
future) — no `DuplicateId` failure of any kind occurs, contradicting the
claim that the existing entry would not be overwritten. -/
theorem c6_counterexample :
    (registerRequest duplicateIdState).1 = "1" ∧
    duplicateIdState.pending.lookup "1" = some (FutureState.doneResult .jnull) ∧
    (registerRequest duplicateIdState).2.pending = [("1", FutureState.pending)] ∧
    (registerRequest duplicateIdState).2.pending.lookup "1" =
      some FutureState.pending :=
  ⟨rfl, rfl, rfl, rfl⟩

/-- C6, amended: registration performs no duplicate check — it
unconditionally assigns the slot, replacing any existing binding of the
same id — but under the reachable-state invariant that every pending id
was produced by the counter (it equals `str m` for some `m ≤ counter`),
the freshly drawn id `str(counter+1)` is not yet in the table, so the
assignment is a pure append and no existing entry is ever replaced. -/
theorem c6_register_appends_fresh_id (s : ClientState)
    (hinv : ∀ p ∈ s.pending, ∃ m, m ≤ s.requestIdCounter ∧ p.1 = pyStrNat m) :
    (registerRequest s).1 = pyStrNat (s.requestIdCounter + 1) ∧
    s.pending.lookup (registerRequest s).1 = none ∧
    (registerRequest s).2.pending =
      s.pending ++ [((registerRequest s).1, FutureState.pending)] := by
  have hno : ∀ p ∈ s.pending, p.1 ≠ pyStrNat (s.requestIdCounter + 1) := by
    intro p hp he
    obtain ⟨m, hm, hpk⟩ := hinv p hp
    rw [hpk] at he
    have := pyStrNat_injective he
    omega
  have hr1 : (registerRequest s).1 = pyStrNat (s.requestIdCounter + 1) := rfl
  have h2 : (registerRequest s).2.pending
      = setKey s.pending (pyStrNat (s.requestIdCounter + 1)) .pending := rfl
  refine ⟨hr1, ?_, ?_⟩
  · rw [hr1]
    exact lookup_none_of_no_key _ _ hno
  · rw [h2, hr1]
    unfold setKey
    rw [any_key_false_of_no_key _ _ hno]
    simp

/-- Witness for C6 at a one-entry reachable state (id "1", counter 1). -/
theorem c6_witness :
    (∀ p ∈ demoConnectedState.pending,
      ∃ m, m ≤ demoConnectedState.requestIdCounter ∧ p.1 = pyStrNat m) ∧
    ((registerRequest demoConnectedState).1 =
      pyStrNat (demoConnectedState.requestIdCounter + 1) ∧
    demoConnectedState.pending.lookup (registerRequest demoConnectedState).1 = none ∧
    (registerRequest demoConnectedState).2.pending =
      demoConnectedState.pending ++
        [((registerRequest demoConnectedState).1, FutureState.pending)]) :=
  have hinv : ∀ p ∈ demoConnectedState.pending,
      ∃ m, m ≤ demoConnectedState.requestIdCounter ∧ p.1 = pyStrNat m := by
    intro p hp
    rcases List.mem_singleton.mp hp with rfl
    exact ⟨1, Nat.le_refl 1, rfl⟩
  ⟨hinv, c6_register_appends_fresh_id demoConnectedState hinv⟩

/-- A server environment whose tool and resource bodies both return a
null payload, for concrete evaluation. -/
def demoServerEnv : ServerEnv :=
  { toolOutcome := .ok .jnull, resourceOutcome := .ok .jnull }

/-- C8: the claim fails on the shutdown acknowledgment.  For the request
`{"jsonrpc":"2.0","id":1,"method":"shutdown"}` the server calls
`send_response(req_id, result=None)`, and `send_response` adds the
`result` field only when its argument is not `None`, so the emitted
message `{"jsonrpc":"2.0","id":1}` contains neither a `result` nor an
`error` field — not exactly one of them.  Every response built with a
non-`None` result and no error, or an error and no result (all other
`send_response` call sites), does satisfy the exactly-one shape. -/
theorem c8_shutdown_ack_has_neither_result_nor_error :
    handle_request demoServerEnv
        (.jobj [("jsonrpc", .jstr "2.0"), ("id", .jnum 1), ("method", .jstr "shutdown")]) =
      .emits [.jobj [("jsonrpc", .jstr "2.0"), ("id", .jnum 1)]] ∧
    hasKey (.jobj [("jsonrpc", .jstr "2.0"), ("id", .jnum 1)]) "result" = false ∧
    hasKey (.jobj [("jsonrpc", .jstr "2.0"), ("id", .jnum 1)]) "error" = false ∧
    (∀ i r, hasKey (send_response i (some r) none) "result" = true ∧
            hasKey (send_response i (some r) none) "error" = false) ∧
    (∀ i e, hasKey (send_response i none (some e)) "error" = true ∧
            hasKey (send_response i none (some e)) "result" = false) :=
  ⟨rfl, rfl, rfl, fun _ _ => ⟨rfl, rfl⟩, fun _ _ => ⟨rfl, rfl⟩⟩

/-- C9: neither synchronous facade operation can leave its caller without
an answer.  The blocking wait each performs is invoked with the finite
bound `timeout + 10` (connect) resp. `timeout + 5` (call) — the fixed
marshalling margins from the source — and every possible outcome of that
bounded wait (completion, an MCPError from the coroutine, any other
exception including the wait's own expiry) is mapped to a definite
return: a boolean for `connect`, and for a call either the result value
or an `MCPError` details dict; nothing escapes or hangs the mapping. -/
theorem c9_facade_waits_bounded_and_every_outcome_handled
    (timeout : ℚ) (lr b : Bool) (e v : JVal) (msg m : String)
    (wb : FutureWait Bool) (wj : FutureWait JVal) :
    connectWaitBound timeout = timeout + 10 ∧
    requestWaitBound timeout = timeout + 5 ∧
    connect lr (.value b) = (lr && b) ∧
    connect lr (.raisedMCP e) = false ∧
    connect lr (.raisedOther msg) = false ∧
    connect false wb = false ∧
    sendRequestAndWaitSync false m wj =
      .error (errDetails (-32001) "Client background loop not running") ∧
    sendRequestAndWaitSync true m (.value v) = .ok v ∧
    sendRequestAndWaitSync true m (.raisedMCP e) = .error e ∧
    sendRequestAndWaitSync true m (.raisedOther msg) =
      .error (errDetails (-32000) ("Failed to execute " ++ m ++ ": " ++ msg)) := by
  refine ⟨rfl, rfl, ?_, ?_, ?_, ?_, rfl, rfl, rfl, rfl⟩
  · cases lr <;> rfl
  · cases lr <;> rfl
  · cases lr <;> rfl
  · cases wb <;> rfl

theorem rawGet_of_pySubscript {x : JVal} {k : String} {v : JVal}
    (h : pySubscriptStr x k = .ok v) : rawGet x k = some v := by
  cases x with
  | jobj fields =>
      simp only [pySubscriptStr] at h
      cases hl : fields.lookup k with
      | none => rw [hl] at h; cases h
      | some w =>
          rw [hl] at h
          cases h
          simpa [rawGet] using hl
  | jnull => simp [pySubscriptStr] at h
  | jbool b => simp [pySubscriptStr] at h
  | jnum n => simp [pySubscriptStr] at h
  | jstr s => simp [pySubscriptStr] at h
  | jarr elems => simp [pySubscriptStr] at h

theorem callToolSuccessBody_cases (parse : String → Except String JVal)
    (result : JVal) :
    callToolSuccessBody parse result =
      .ok (.jobj [("error", .jstr "Malformed tool response")]) ∨
    (∃ e, callToolSuccessBody parse result = .error e) ∨
    (∃ txt v, firstContentText result = some (.jstr txt) ∧
      parse txt = .ok v ∧ callToolSuccessBody parse result = .ok v) := by
  cases hg : toolGuard result with
  | error e => exact Or.inr (Or.inl ⟨e, by simp [callToolSuccessBody, hg]⟩)
  | ok g =>
      cases g with
      | false => exact Or.inl (by simp [callToolSuccessBody, hg])
      | true =>
          cases hc : pySubscriptStr result "content" with
          | error e =>
              exact Or.inr (Or.inl ⟨e, by simp [callToolSuccessBody, hg, hc]⟩)
          | ok contentVal =>
              cases contentVal with
              | jarr elems =>
                  cases elems with
                  | nil =>
                      exact Or.inr (Or.inl
                        ⟨PyExn.typeErr "guard ensured a nonempty list here",
                         by simp [callToolSuccessBody, hg, hc]⟩)
                  | cons e0 rest =>
                      cases ht : pySubscriptStr e0 "text" with
                      | error e =>
                          exact Or.inr (Or.inl
                            ⟨e, by simp [callToolSuccessBody, hg, hc, ht]⟩)
                      | ok textVal =>
                          cases textVal with
                          | jstr s =>
                              cases hp : parse s with
                              | error msg =>
                                  exact Or.inr (Or.inl
                                    ⟨PyExn.jsonDecodeErr msg,
                                     by simp [callToolSuccessBody, hg, hc, ht, hp]⟩)
                              | ok v =>
                                  refine Or.inr (Or.inr ⟨s, v, ?_, hp, ?_⟩)
                                  · have hcr := rawGet_of_pySubscript hc
                                    have htr := rawGet_of_pySubscript ht
                                    simp [firstContentText, hcr, htr]
                                  · simp [callToolSuccessBody, hg, hc, ht, hp]
                          | jnull =>
                              exact Or.inr (Or.inl
                                ⟨PyExn.typeErr "the JSON object must be str, bytes or bytearray",
                                 by simp [callToolSuccessBody, hg, hc, ht]⟩)
                          | jbool b =>
                              exact Or.inr (Or.inl
                                ⟨PyExn.typeErr "the JSON object must be str, bytes or bytearray",
                                 by simp [callToolSuccessBody, hg, hc, ht]⟩)
                          | jnum n =>
                              exact Or.inr (Or.inl
                                ⟨PyExn.typeErr "the JSON object must be str, bytes or bytearray",
                                 by simp [callToolSuccessBody, hg, hc, ht]⟩)
                          | jarr es =>
                              exact Or.inr (Or.inl
                                ⟨PyExn.typeErr "the JSON object must be str, bytes or bytearray",
                                 by simp [callToolSuccessBody, hg, hc, ht]⟩)
                          | jobj fs =>
                              exact Or.inr (Or.inl
                                ⟨PyExn.typeErr "the JSON object must be str, bytes or bytearray",
                                 by simp [callToolSuccessBody, hg, hc, ht]⟩)
              | jnull =>
                  exact Or.inr (Or.inl
                    ⟨PyExn.typeErr "guard ensured a nonempty list here",
                     by simp [callToolSuccessBody, hg, hc]⟩)
              | jbool b =>
                  exact Or.inr (Or.inl
                    ⟨PyExn.typeErr "guard ensured a nonempty list here",
                     by simp [callToolSuccessBody, hg, hc]⟩)
              | jnum n =>
                  exact Or.inr (Or.inl
                    ⟨PyExn.typeErr "guard ensured a nonempty list here",
                     by simp [callToolSuccessBody, hg, hc]⟩)
              | jstr s =>
                  exact Or.inr (Or.inl
                    ⟨PyExn.typeErr "guard ensured a nonempty list here",
                     by simp [callToolSuccessBody, hg, hc]⟩)
              | jobj fs =>
                  exact Or.inr (Or.inl
                    ⟨PyExn.typeErr "guard ensured a nonempty list here",
                     by simp [callToolSuccessBody, hg, hc]⟩)

theorem rawGet_errDetails_message (code : Int) (msg : String) :
    rawGet (errDetails code msg) "message" = some (.jstr msg) := rfl

/-- C10: `call_tool` is total at its public boundary: for every decoder,
client state, tool name and transport outcome it returns a JSON value and
every failure path — unhealthy client, `MCPError` from the transport
(including the loop-not-running and wait-expiry wraps), a malformed tool
response structure, a non-string or undecodable text payload — yields a
dict whose single key is "error"; on the success path it returns exactly
the decoded payload of the first content item's "text" field. -/
theorem c10_call_tool_total_and_shaped
    (parse : String → Except String JVal) (s : ClientState)
    (toolName : String) (w : FutureWait JVal) :
    (∃ m, call_tool parse s toolName w = .jobj [("error", m)]) ∨
    (∃ result txt v, w = FutureWait.value result ∧
      firstContentText result = some (.jstr txt) ∧ parse txt = .ok v ∧
      call_tool parse s toolName w = v) := by
  cases hhealth : is_healthy s with
  | false =>
      exact Or.inl
        ⟨.jstr ("MCP client not healthy. Cannot call tool: " ++ toolName ++ "."),
         by simp [call_tool, hhealth]⟩
  | true =>
      cases hloop : s.loopRunning with
      | false =>
          exact Or.inl ⟨.jstr "Client background loop not running",
            by simp [call_tool, hhealth, hloop, sendRequestAndWaitSync,
              rawGet_errDetails_message]⟩
      | true =>
          cases w with
          | value result =>
              have hsend : sendRequestAndWaitSync s.loopRunning "tools/call"
                  (FutureWait.value result) = .ok result := by
                simp [sendRequestAndWaitSync, hloop]
              rcases callToolSuccessBody_cases parse result with
                hcase | ⟨e, hcase⟩ | ⟨txt, v, hct, hp, hcase⟩
              · exact Or.inl ⟨.jstr "Malformed tool response",
                  by simp [call_tool, hhealth, hsend, hcase]⟩
              · cases e with
                | jsonDecodeErr m2 =>
                    exact Or.inl
                      ⟨.jstr ("Tool response JSON decode error: " ++ m2),
                       by simp [call_tool, hhealth, hsend, hcase]⟩
                | typeErr m2 =>
                    exact Or.inl ⟨.jstr m2,
                      by simp [call_tool, hhealth, hsend, hcase]⟩
                | keyErr m2 =>
                    exact Or.inl ⟨.jstr m2,
                      by simp [call_tool, hhealth, hsend, hcase]⟩
              · exact Or.inr ⟨result, txt, v, rfl, hct, hp,
                  by simp [call_tool, hhealth, hsend, hcase]⟩
          | raisedMCP details =>
              exact Or.inl
                ⟨(rawGet details "message").getD (.jstr (mcpErrorStr details)),
                 by simp [call_tool, hhealth, hloop, sendRequestAndWaitSync]⟩
          | raisedOther msg =>
              exact Or.inl
                ⟨.jstr ("Failed to execute " ++ "tools/call" ++ ": " ++ msg),
                 by simp [call_tool, hhealth, hloop, sendRequestAndWaitSync,
                   rawGet_errDetails_message]⟩
